import Mathlib

/-!
Verification of the neural-symphony repository against its specification.

The development shallowly embeds the two source files the claims are about:

* `src/scripts/transformers-server.py` — the chat-completion HTTP handler
  (namespace `TransformersServer`); the loaded model pipeline is abstracted
  as a structure of oracles (chat-template rendering and generation), and the
  handler `chat_completions` is translated statement by statement, including
  the `try`/`except` structure: the blanket `except Exception` clause wraps
  every exception raised inside the `try` block (FastAPI's `HTTPException`
  included, since it derives from `Exception`) into a 500 response.

* `src/deploy-quick.py` — the deployment workflow (namespace `DeployQuick`);
  external effects (gcloud invocations, file writes, sleeps, prompts) are
  modelled as an event trace, the environment (user answers, instance
  existence, readiness-check outcomes) as an oracle structure, and the
  `try`/`except KeyboardInterrupt`/`except Exception`/`finally` structure of
  `deploy` as a step runner with an interruption parameter.

Python string helpers (`str.strip`, `str.lower`, `str.split`) are embedded
as executable functions over the character list of a string.
-/

namespace PyStr

/-- Embedding of Python `str.strip()`: remove leading and trailing
whitespace. -/
def strip (s : String) : String :=
  ⟨((s.data.dropWhile Char.isWhitespace).reverse.dropWhile Char.isWhitespace).reverse⟩

/-- Embedding of Python `str.lower()` for the ASCII range. -/
def lower (s : String) : String :=
  ⟨s.data.map Char.toLower⟩

/-- Embedding of Python `str.split()` with no separator: split on runs of
whitespace, dropping empty fields. -/
def splitWS (s : String) : List String :=
  (s.split fun c => c.isWhitespace).filter fun t => t ≠ ""

end PyStr

namespace TransformersServer

/-- A chat message: one element of the request's `messages` list. -/
structure Message where
  role : String
  content : String
deriving DecidableEq

/-- The request body of `POST /v1/chat/completions` as the handler reads it:
`request.get("messages", [])` makes an absent `messages` key the empty list,
so only the optional generation parameters keep an explicit `Option`. -/
structure ChatRequest where
  messages : List Message
  max_tokens : Option Nat
  temperature : Option ℚ
  top_p : Option ℚ

/-- The `generation_args` dictionary built by the handler and passed to the
pipeline call. Temperatures are embedded as rationals: the handler only
defaults and forwards them, it never computes with them. -/
structure GenerationArgs where
  max_new_tokens : Nat
  temperature : ℚ
  top_p : ℚ
  do_sample : Bool
  pad_token_id : Option Nat
  return_full_text : Bool
deriving DecidableEq

/-- The loaded `transformers` pipeline, abstracted as oracles: chat-template
rendering, the tokenizer's `eos_token_id`, and the generation call itself,
which either returns the generated text or raises (modelled as `Except`). -/
structure Pipe where
  apply_chat_template : List Message → String
  eos_token_id : Option Nat
  generate : String → GenerationArgs → Except String String

/-- The `usage` object of a successful response. -/
structure Usage where
  prompt_tokens : Nat
  completion_tokens : Nat
  total_tokens : Nat
deriving DecidableEq

/-- One element of the `choices` list of a successful response. -/
structure Choice where
  message : Message
  finish_reason : String
deriving DecidableEq

/-- The body of a successful chat-completion response. -/
structure ChatResponse where
  choices : List Choice
  usage : Usage
deriving DecidableEq

/-- The observable outcome of the handler: a JSON success body, or an
`HTTPException` with a status code and detail string. -/
inductive HandlerResult where
  | ok : ChatResponse → HandlerResult
  | httpError : Nat → String → HandlerResult
deriving DecidableEq

/-- A record of one invocation of the pipeline (the `pipe(prompt,
**generation_args)` call), kept so theorems can count generation calls. -/
structure GenCall where
  prompt : String
  args : GenerationArgs

/-- An exception alive inside the handler's `try` block: either an
`HTTPException` (status code and detail) or any other exception with its
message. -/
inductive PyExc where
  | http : Nat → String → PyExc
  | generic : String → PyExc

/-- Embedding of Python `str(e)` for the exceptions above; `HTTPException`
stringifies as `"<status_code>: <detail>"`. -/
def PyExc.str : PyExc → String
  | .http code detail => toString code ++ ": " ++ detail
  | .generic msg => msg

/-- The `generation_args` dictionary exactly as the handler builds it:
`request.get` defaults of 1024 tokens, temperature 0.7, top-p 0.9, plus the
fixed `do_sample`, `pad_token_id` and `return_full_text` entries. -/
def generationArgs (p : Pipe) (request : ChatRequest) : GenerationArgs :=
  ⟨request.max_tokens.getD 1024, request.temperature.getD ((7 : ℚ) / 10),
   request.top_p.getD ((9 : ℚ) / 10), true, p.eos_token_id, false⟩

/-- The body of the handler's `try` block, run with a loaded pipeline:
empty-message check (raising `HTTPException(400, ...)`), chat-template
rendering, argument assembly, the generation call, and response assembly
with whitespace-token counts. The second component records the generation
calls performed. -/
def tryBody (p : Pipe) (request : ChatRequest) :
    Except PyExc ChatResponse × List GenCall :=
  let messages := request.messages
  if messages = [] then
    (Except.error (PyExc.http 400 "No messages provided"), [])
  else
    let prompt := p.apply_chat_template messages
    let args := generationArgs p request
    match p.generate prompt args with
    | Except.error msg => (Except.error (PyExc.generic msg), [⟨prompt, args⟩])
    | Except.ok generated_text =>
        (Except.ok
          ⟨[⟨⟨"assistant", generated_text⟩, "stop"⟩],
           ⟨(PyStr.splitWS prompt).length, (PyStr.splitWS generated_text).length,
            (PyStr.splitWS prompt).length + (PyStr.splitWS generated_text).length⟩⟩,
         [⟨prompt, args⟩])

/-- The `chat_completions` handler. With no pipeline loaded it raises
`HTTPException(503, ...)` before the `try` block; otherwise it runs the
`try` body, and the `except Exception` clause converts ANY exception that
escapes the body — the deliberately raised 400 included — into
`HTTPException(500, str(e))`. -/
def chat_completions (pipe : Option Pipe) (request : ChatRequest) :
    HandlerResult × List GenCall :=
  match pipe with
  | none => (HandlerResult.httpError 503 "Model not initialized", [])
  | some p =>
      let r := tryBody p request
      match r.1 with
      | Except.ok resp => (HandlerResult.ok resp, r.2)
      | Except.error e => (HandlerResult.httpError 500 e.str, r.2)

/-- The HTTP status of a handler outcome, `none` on success. -/
def statusOf : HandlerResult → Option Nat
  | .ok _ => none
  | .httpError code _ => some code

/-- A chat request whose `messages` list is empty and which carries no
generation parameters. -/
def emptyRequest : ChatRequest := ⟨[], none, none, none⟩

/-- A concrete chat-template function for witnesses: role-prefixed lines. -/
def demoTemplate (messages : List Message) : String :=
  String.intercalate "\n" (messages.map fun m => m.role ++ ": " ++ m.content)

/-- A concrete loaded pipeline for witnesses, generating a fixed reply. -/
def demoPipe : Pipe :=
  ⟨demoTemplate, some 0, fun _ _ => Except.ok "Hello there"⟩

/-- The spec's example request: the single message `{"role": "user",
"content": "hello"}` with no generation parameters. -/
def demoRequest : ChatRequest := ⟨[⟨"user", "hello"⟩], none, none, none⟩

/-- The generation calls recorded by the handler are those of the `try`
body. -/
theorem chat_completions_snd (p : Pipe) (request : ChatRequest) :
    (chat_completions (some p) request).2 = (tryBody p request).2 := by
  unfold chat_completions
  cases h : (tryBody p request).1 <;> simp [h]

/-- With non-empty messages the `try` body performs exactly one generation
call, on the rendered prompt with the assembled arguments, whether or not
the call raises. -/
theorem tryBody_snd (p : Pipe) (request : ChatRequest)
    (hm : request.messages ≠ []) :
    (tryBody p request).2 =
      [⟨p.apply_chat_template request.messages, generationArgs p request⟩] := by
  unfold tryBody
  rw [if_neg hm]
  cases hg : p.generate (p.apply_chat_template request.messages)
      (generationArgs p request) <;> simp only [hg]

/-- C7: for every request handled while the pipeline is not initialized
(`pipe is None`), the handler raises `HTTPException(503, "Model not
initialized")` and performs no generation call. -/
theorem chat_completions_unloaded_503 (request : ChatRequest) :
    chat_completions none request =
      (HandlerResult.httpError 503 "Model not initialized", []) := rfl

/-- C1 (failing input): with any pipeline loaded and an empty `messages`
list, the handler makes no generation call, but its response status is 500,
not the 400 the code tries to raise: the `HTTPException(400, "No messages
provided")` raised inside the `try` block is caught by the blanket `except
Exception` clause and re-raised as `HTTPException(500, str(e))`. -/
theorem chat_completions_empty_messages_500 (p : Pipe) :
    statusOf (chat_completions (some p) emptyRequest).1 = some 500 ∧
    (chat_completions (some p) emptyRequest).2 = [] := ⟨rfl, rfl⟩

/-- C8: for every successfully handled request (pipeline loaded, non-empty
messages, generation returns non-empty text `t`), the response has exactly
one choice, with role `"assistant"`, finish reason `"stop"` and non-empty
content `t`, and its usage counts satisfy
`total_tokens = prompt_tokens + completion_tokens`. -/
theorem chat_completions_success_shape (p : Pipe) (request : ChatRequest)
    (t : String) (hm : request.messages ≠ [])
    (hg : p.generate (p.apply_chat_template request.messages)
      (generationArgs p request) = Except.ok t)
    (ht : t ≠ "") :
    ∃ resp, (chat_completions (some p) request).1 = HandlerResult.ok resp ∧
      resp.choices = [⟨⟨"assistant", t⟩, "stop"⟩] ∧
      (∀ c ∈ resp.choices, c.message.role = "assistant" ∧
        c.finish_reason = "stop" ∧ c.message.content ≠ "") ∧
      resp.usage.total_tokens =
        resp.usage.prompt_tokens + resp.usage.completion_tokens := by
  have hb : tryBody p request =
      (Except.ok
        ⟨[⟨⟨"assistant", t⟩, "stop"⟩],
         ⟨(PyStr.splitWS (p.apply_chat_template request.messages)).length,
          (PyStr.splitWS t).length,
          (PyStr.splitWS (p.apply_chat_template request.messages)).length +
            (PyStr.splitWS t).length⟩⟩,
       [⟨p.apply_chat_template request.messages, generationArgs p request⟩]) := by
    unfold tryBody
    rw [if_neg hm]
    simp only [hg]
  refine ⟨⟨[⟨⟨"assistant", t⟩, "stop"⟩],
      ⟨(PyStr.splitWS (p.apply_chat_template request.messages)).length,
       (PyStr.splitWS t).length,
       (PyStr.splitWS (p.apply_chat_template request.messages)).length +
         (PyStr.splitWS t).length⟩⟩, ?_, rfl, ?_, rfl⟩
  · simp [chat_completions, hb]
  · intro c hc
    simp only [List.mem_singleton] at hc
    subst hc
    exact ⟨rfl, rfl, ht⟩

/-- Witness for C8 at the spec's example: the single user message "hello"
with the demo pipeline, which generates the non-empty reply "Hello there". -/
theorem chat_completions_success_shape_witness :
    ∃ resp,
      (chat_completions (some demoPipe) demoRequest).1 = HandlerResult.ok resp ∧
      resp.choices = [⟨⟨"assistant", "Hello there"⟩, "stop"⟩] ∧
      (∀ c ∈ resp.choices, c.message.role = "assistant" ∧
        c.finish_reason = "stop" ∧ c.message.content ≠ "") ∧
      resp.usage.total_tokens =
        resp.usage.prompt_tokens + resp.usage.completion_tokens :=
  chat_completions_success_shape demoPipe demoRequest "Hello there"
    (by decide) rfl (by decide)

/-- C10: for every request with non-empty messages that omits `max_tokens`,
`temperature` and `top_p`, the handler makes exactly one generation call,
and the arguments it passes carry the fixed defaults: 1024 new tokens,
temperature 0.7, top-p 0.9. -/
theorem chat_completions_default_params (p : Pipe) (request : ChatRequest)
    (hm : request.messages ≠ []) (h1 : request.max_tokens = none)
    (h2 : request.temperature = none) (h3 : request.top_p = none) :
    (chat_completions (some p) request).2 =
      [⟨p.apply_chat_template request.messages,
        ⟨1024, (7 : ℚ) / 10, (9 : ℚ) / 10, true, p.eos_token_id, false⟩⟩] := by
  rw [chat_completions_snd, tryBody_snd p request hm]
  simp [generationArgs, h1, h2, h3]

/-- Witness for C10 at the spec's example request, which omits all three
generation parameters. -/
theorem chat_completions_default_params_witness :
    (chat_completions (some demoPipe) demoRequest).2 =
      [⟨demoPipe.apply_chat_template demoRequest.messages,
        ⟨1024, (7 : ℚ) / 10, (9 : ℚ) / 10, true, demoPipe.eos_token_id,
         false⟩⟩] :=
  chat_completions_default_params demoPipe demoRequest (by decide) rfl rfl rfl

end TransformersServer

namespace DeployQuick

/-- One observable action of the deployment workflow: a gcloud invocation,
the local script-file write, or a print/sleep of the readiness loop.
Instance-level gcloud calls carry the name, zone and project they are
addressed to; the project is an `Option` because `NeuralSymphonyDeployer`
initializes `project_id` to `None`. -/
inductive GEvent where
  | enableApi (api : String) (project : Option String)
  | describeInstance (name zone : String) (project : Option String)
  | deleteInstance (name zone : String) (project : Option String)
  | createInstance (name zone machineType : String) (project : Option String)
  | createFirewallRule (rule : String) (project : Option String)
  | sshCheck (attempt : Nat)
  | sshSetupRepo (repoUrl : String)
  | getIp (name zone : String) (project : Option String)
  | writeScriptFile
  | progressMsg (attempt : Nat)
  | sleepBetween (attempt : Nat)
  | warnTimeout
deriving DecidableEq

/-- The event is a `gcloud compute instances delete` call. -/
def GEvent.isDelete : GEvent → Bool
  | GEvent.deleteInstance _ _ _ => true
  | _ => false

/-- The event is a `gcloud compute instances create` call. -/
def GEvent.isCreate : GEvent → Bool
  | GEvent.createInstance _ _ _ _ => true
  | _ => false

/-- The event is a readiness-check ssh invocation. -/
def GEvent.isCheck : GEvent → Bool
  | GEvent.sshCheck _ => true
  | _ => false

/-- Number of readiness-check attempts in a trace. -/
def checkCount (evs : List GEvent) : Nat := evs.countP GEvent.isCheck

/-- The configuration fields of `NeuralSymphonyDeployer`. -/
structure Deployer where
  project_id : Option String
  instance_name : String
  zone : String
  machine_type : String

/-- The deployer as `__init__` leaves it: no project yet, fixed instance
name, zone and machine type. -/
def initDeployer : Deployer :=
  ⟨none, "neural-symphony-gpu", "us-east4-a", "g2-standard-8"⟩

/-- The external environment of one run: the project resolved by
`check_gcloud` (`none` when it fails), whether `describe` finds an existing
instance, the raw answer typed at the delete-and-recreate prompt, whether
instance creation exits zero, the outcome of the readiness check per attempt
(`false` covers non-zero exit, timeout and any other caught exception), and
the raw repository URL typed at the prompt. -/
structure Env where
  authProject : Option String
  instanceExists : Bool
  overwriteAnswer : String
  createOk : Bool
  checkOk : Nat → Bool
  repoUrl : String

/-- Value of `max_attempts` in `wait_for_ready`. -/
def max_attempts : Nat := 100

/-- The readiness loop from attempt index `attempt` with `remaining`
iterations left. Each iteration runs the ssh check; success breaks out at
once; failure prints progress every sixth attempt and sleeps 10 seconds.
Exhaustion runs the `for`-`else` arm: a warning, never an exception. The
Boolean records whether the sentinel was observed. -/
def pollFrom (checkOk : Nat → Bool) : Nat → Nat → List GEvent × Bool
  | _, 0 => ([GEvent.warnTimeout], false)
  | attempt, r + 1 =>
      if checkOk attempt then ([GEvent.sshCheck attempt], true)
      else
        let rest := pollFrom checkOk (attempt + 1) r
        (GEvent.sshCheck attempt ::
          ((if attempt % 6 = 0 then [GEvent.progressMsg attempt] else []) ++
            GEvent.sleepBetween attempt :: rest.1),
         rest.2)

/-- The `wait_for_ready` method: poll from attempt 0, at most
`max_attempts` times. -/
def wait_for_ready (checkOk : Nat → Bool) : List GEvent × Bool :=
  pollFrom checkOk 0 max_attempts

/-- The `create_instance` method: describe the instance; if it exists, ask
the operator and either delete-then-create (answer `y` after strip/lower) or
return early without touching anything; otherwise create. The Boolean is
false exactly when the creation call failed, where the method runs
`sys.exit(1)`. -/
def create_instance (env : Env) (d : Deployer) : List GEvent × Bool :=
  let describeEv := GEvent.describeInstance d.instance_name d.zone d.project_id
  let createEv :=
    GEvent.createInstance d.instance_name d.zone d.machine_type d.project_id
  if env.instanceExists then
    if PyStr.lower (PyStr.strip env.overwriteAnswer) = "y" then
      ([describeEv, GEvent.deleteInstance d.instance_name d.zone d.project_id,
        createEv], env.createOk)
    else
      ([describeEv], true)
  else
    ([describeEv, createEv], env.createOk)

/-- How the `try` block of `deploy` terminates: reaching the end, a caught
`KeyboardInterrupt`, a caught `Exception`, or the `SystemExit` from
`sys.exit(1)` in `create_instance` (which the two `except` clauses do not
catch but `finally` still runs for). -/
inductive TryResult where
  | normal | keyboard | error | sysexit
deriving DecidableEq

/-- An interruption scenario: no interruption, or a `KeyboardInterrupt` or
other `Exception` striking at the start of step number `step` of the `try`
block. -/
inductive Interrupt where
  | noInterrupt
  | keyboardAt (step : Nat)
  | errorAt (step : Nat)
deriving DecidableEq

/-- Whether the scenario interrupts step `s`, and how. -/
def interruptAt : Interrupt → Nat → Option TryResult
  | .noInterrupt, _ => none
  | .keyboardAt k, s => if k = s then some TryResult.keyboard else none
  | .errorAt k, s => if k = s then some TryResult.error else none

/-- One step of the `try` block of `deploy`, numbered in source order:
0 `enable_apis`, 1 `create_startup_script` (the only step that writes the
local script file), 2 `create_instance`, 3 `setup_firewall`,
4 `wait_for_ready`, 5 the repo-URL prompt, 6 `setup_continuous_deployment`
when the stripped URL is non-empty, 7 `show_results` (whose
`get_instance_ip` describes the instance). Returns the step's events,
whether it wrote the script file, and whether execution continues. -/
def stepRun (env : Env) (d : Deployer) : Nat → List GEvent × Bool × Bool
  | 0 => ([GEvent.enableApi "compute.googleapis.com" d.project_id,
           GEvent.enableApi "storage.googleapis.com" d.project_id],
          false, true)
  | 1 => ([GEvent.writeScriptFile], true, true)
  | 2 => ((create_instance env d).1, false, (create_instance env d).2)
  | 3 => ([GEvent.createFirewallRule "neural-symphony-web" d.project_id],
          false, true)
  | 4 => ((wait_for_ready env.checkOk).1, false, true)
  | 5 => ([], false, true)
  | 6 => (if PyStr.strip env.repoUrl = "" then []
          else [GEvent.sshSetupRepo (PyStr.strip env.repoUrl)], false, true)
  | _ => ([GEvent.getIp d.instance_name d.zone d.project_id], false, true)

/-- Runs the listed steps of the `try` block in order, threading the
script-file flag, stopping at an interruption or at a step that does not
continue. -/
def runSteps (env : Env) (d : Deployer) (intr : Interrupt) :
    List Nat → Bool → List GEvent × Bool × TryResult
  | [], script => ([], script, TryResult.normal)
  | s :: rest, script =>
      match interruptAt intr s with
      | some r => ([], script, r)
      | none =>
          let step := stepRun env d s
          let script2 := script || step.2.1
          if step.2.2 then
            let tail := runSteps env d intr rest script2
            (step.1 ++ tail.1, tail.2.1, tail.2.2)
          else
            (step.1, script2, TryResult.sysexit)

/-- The step numbers of the `try` block of `deploy`, in order. -/
def deploySteps : List Nat := [0, 1, 2, 3, 4, 5, 6, 7]

/-- How a run of `deploy` ends: returning `False` before the `try` block
(`check_gcloud` failed), returning `True` normally, returning `False` from a
caught `KeyboardInterrupt` or `Exception`, or exiting the process via the
propagated `SystemExit`. -/
inductive Outcome where
  | preFalse | retTrue | retFalse | exited
deriving DecidableEq

/-- The observable result of a run of `deploy`: its event trace, whether
`startup-script.sh` is on disk afterwards, and how it ended. -/
structure DeployOut where
  events : List GEvent
  scriptOnDisk : Bool
  outcome : Outcome

/-- The `deploy` method. `check_gcloud` failing returns `False` with no
cloud call and no file written. Otherwise the `try` block runs (possibly
interrupted), and the `finally` clause removes `startup-script.sh` when it
exists — on normal return, caught exception, caught interrupt and
`SystemExit` alike. -/
def deployRun (env : Env) (intr : Interrupt) : DeployOut :=
  match env.authProject with
  | none => ⟨[], false, Outcome.preFalse⟩
  | some proj =>
      let d : Deployer :=
        ⟨some proj, "neural-symphony-gpu", "us-east4-a", "g2-standard-8"⟩
      let run := runSteps env d intr deploySteps false
      ⟨run.1, if run.2.1 then false else run.2.1,
       match run.2.2 with
       | TryResult.normal => Outcome.retTrue
       | TryResult.keyboard => Outcome.retFalse
       | TryResult.error => Outcome.retFalse
       | TryResult.sysexit => Outcome.exited⟩

/-- The `main` entry point, returning the event trace and whether the usage
line was printed. A first argument `status` runs `get_instance_ip` on a
fresh deployer (project still `None`); `clean` runs exactly one uncondi-
tional instance deletion on a fresh deployer; anything else only prints
usage; no argument runs `deploy`. -/
def mainRun (argv : List String) (env : Env) (intr : Interrupt) :
    List GEvent × Bool :=
  match argv with
  | [] => ((deployRun env intr).events, false)
  | cmd :: _ =>
      if cmd = "status" then
        ([GEvent.getIp initDeployer.instance_name initDeployer.zone
            initDeployer.project_id], false)
      else if cmd = "clean" then
        ([GEvent.deleteInstance initDeployer.instance_name initDeployer.zone
            initDeployer.project_id], false)
      else
        ([], true)

/-- An environment whose readiness check never succeeds and whose instance
name is fresh. -/
def neverEnv : Env :=
  ⟨some "demo-project", false, "", true, fun _ => false, ""⟩

/-- An environment where the instance already exists, the operator answers
`n` at the recreate prompt, and the readiness check succeeds at once. -/
def declineEnv : Env :=
  ⟨some "demo-project", true, "n", true, fun _ => true, ""⟩

/-- If the check fails on every attempt the poller emits exactly `r` check
events, returns `false`, and ends in the warning, not an exception. -/
theorem pollFrom_never (checkOk : Nat → Bool) :
    ∀ r a, (∀ i, i < r → checkOk (a + i) = false) →
      checkCount (pollFrom checkOk a r).1 = r ∧
      (pollFrom checkOk a r).2 = false ∧
      GEvent.warnTimeout ∈ (pollFrom checkOk a r).1 := by
  intro r
  induction r with
  | zero =>
      intro a _
      refine ⟨rfl, rfl, ?_⟩
      simp [pollFrom]
  | succ n ih =>
      intro a h
      have h0 : checkOk a = false := by simpa using h 0 (by omega)
      have hrest := ih (a + 1) fun i hi => by
        rw [show a + 1 + i = a + (i + 1) by omega]
        exact h (i + 1) (by omega)
      have hprog : List.countP GEvent.isCheck
          (if a % 6 = 0 then [GEvent.progressMsg a] else []) = 0 := by
        split <;> simp [GEvent.isCheck]
      refine ⟨?_, ?_, ?_⟩
      · simp only [checkCount] at hrest ⊢
        simp [pollFrom, h0, List.countP_cons, List.countP_append, hprog,
          GEvent.isCheck, hrest.1]
      · simp [pollFrom, h0, hrest.2.1]
      · simp [pollFrom, h0, hrest.2.2]

/-- Poll events are never instance deletions or creations. -/
theorem pollFrom_no_admin (checkOk : Nat → Bool) :
    ∀ r a, ((pollFrom checkOk a r).1.all
      fun e => !e.isDelete && !e.isCreate) = true := by
  intro r
  induction r with
  | zero =>
      intro a
      simp [pollFrom, GEvent.isDelete, GEvent.isCreate]
  | succ n ih =>
      intro a
      by_cases h : checkOk a = true
      · simp [pollFrom, h, GEvent.isDelete, GEvent.isCreate]
      · simp only [Bool.not_eq_true] at h
        simp [pollFrom, h, List.all_append, GEvent.isDelete, GEvent.isCreate]
        intro x hx
        have hx2 := List.all_eq_true.mp (ih (a + 1)) x hx
        simp [GEvent.isDelete, GEvent.isCreate] at hx2 ⊢
        exact hx2

/-- If the check first succeeds on 0-based attempt index `a + j` with fuel
to spare, the poller's trace is a prefix holding `j` checks followed by the
successful check as its very last event, and it reports success. -/
theorem pollFrom_first_success (checkOk : Nat → Bool) :
    ∀ j a r, j < r → (∀ i, i < j → checkOk (a + i) = false) →
      checkOk (a + j) = true →
      ∃ pre, (pollFrom checkOk a r).1 = pre ++ [GEvent.sshCheck (a + j)] ∧
        checkCount pre = j ∧ (pollFrom checkOk a r).2 = true := by
  intro j
  induction j with
  | zero =>
      intro a r hr hfail hsucc
      obtain ⟨r2, rfl⟩ : ∃ r2, r = r2 + 1 := ⟨r - 1, by omega⟩
      rw [Nat.add_zero] at hsucc
      exact ⟨[], by simp [pollFrom, hsucc], rfl, by simp [pollFrom, hsucc]⟩
  | succ n ih =>
      intro a r hr hfail hsucc
      obtain ⟨r2, rfl⟩ : ∃ r2, r = r2 + 1 := ⟨r - 1, by omega⟩
      rw [show a + (n + 1) = a + 1 + n by omega] at hsucc ⊢
      have h0 : checkOk a = false := by simpa using hfail 0 (by omega)
      obtain ⟨pre, hpre, hcnt, hres⟩ := ih (a + 1) r2 (by omega)
        (fun i hi => by
          rw [show a + 1 + i = a + (i + 1) by omega]
          exact hfail (i + 1) (by omega)) hsucc
      have hprog : List.countP GEvent.isCheck
          (if a % 6 = 0 then [GEvent.progressMsg a] else []) = 0 := by
        split <;> simp [GEvent.isCheck]
      refine ⟨GEvent.sshCheck a ::
        ((if a % 6 = 0 then [GEvent.progressMsg a] else []) ++
          GEvent.sleepBetween a :: pre), ?_, ?_, ?_⟩
      · simp [pollFrom, h0, hpre]
      · simp only [checkCount] at hcnt ⊢
        simp [List.countP_cons, List.countP_append, hprog, GEvent.isCheck,
          hcnt]
      · simp [pollFrom, h0, hres]

/-- With its project resolved and `create_instance` not exiting, an
uninterrupted `deploy` run reaches both the firewall step and the final
reporting step. -/
theorem deployRun_reaches_end (env : Env) (proj : String)
    (hp : env.authProject = some proj)
    (hcont : ∀ d, (create_instance env d).2 = true) :
    GEvent.createFirewallRule "neural-symphony-web" (some proj) ∈
      (deployRun env Interrupt.noInterrupt).events ∧
    GEvent.getIp "neural-symphony-gpu" "us-east4-a" (some proj) ∈
      (deployRun env Interrupt.noInterrupt).events := by
  constructor <;>
    simp [deployRun, hp, deploySteps, runSteps, interruptAt, stepRun, hcont,
      List.mem_append]

/-- C4: when the readiness check never succeeds within the bound, the
poller performs exactly `max_attempts` (100) checks, returns the non-fatal
`false` outcome ending in the warning rather than raising, and the workflow
still reaches the final reporting step. -/
theorem wait_for_ready_exhausts (env : Env) (proj : String)
    (h : ∀ n, n < max_attempts → env.checkOk n = false)
    (hp : env.authProject = some proj) (hc : env.createOk = true) :
    checkCount (wait_for_ready env.checkOk).1 = max_attempts ∧
    (wait_for_ready env.checkOk).2 = false ∧
    GEvent.warnTimeout ∈ (wait_for_ready env.checkOk).1 ∧
    GEvent.getIp "neural-symphony-gpu" "us-east4-a" (some proj) ∈
      (deployRun env Interrupt.noInterrupt).events := by
  have hnever := pollFrom_never env.checkOk max_attempts 0
    fun i hi => by simpa using h i hi
  have hcont : ∀ d, (create_instance env d).2 = true := by
    intro d
    unfold create_instance
    by_cases hex : env.instanceExists <;>
      by_cases hans : PyStr.lower (PyStr.strip env.overwriteAnswer) = "y" <;>
        simp [hex, hans, hc]
  exact ⟨hnever.1, hnever.2.1, hnever.2.2,
    (deployRun_reaches_end env proj hp hcont).2⟩

/-- Witness for C4: the environment whose check never succeeds; the poller
performs all 100 attempts, warns, and the run still reports. -/
theorem wait_for_ready_exhausts_witness :
    checkCount (wait_for_ready neverEnv.checkOk).1 = max_attempts ∧
    (wait_for_ready neverEnv.checkOk).2 = false ∧
    GEvent.warnTimeout ∈ (wait_for_ready neverEnv.checkOk).1 ∧
    GEvent.getIp "neural-symphony-gpu" "us-east4-a" (some "demo-project") ∈
      (deployRun neverEnv Interrupt.noInterrupt).events :=
  wait_for_ready_exhausts neverEnv "demo-project" (fun _ _ => rfl) rfl rfl

/-- C5: when the readiness check first succeeds on attempt `k` (1-based,
`k < 100`), the poller performs exactly `k` checks, the successful check is
the very last event of its trace — no further check and no further sleep
follow — and it reports success. -/
theorem wait_for_ready_first_success (checkOk : Nat → Bool) (k : Nat)
    (h1 : 1 ≤ k) (h2 : k < max_attempts)
    (hfail : ∀ i, i < k - 1 → checkOk i = false)
    (hsucc : checkOk (k - 1) = true) :
    ∃ pre, (wait_for_ready checkOk).1 = pre ++ [GEvent.sshCheck (k - 1)] ∧
      checkCount pre = k - 1 ∧
      checkCount (wait_for_ready checkOk).1 = k ∧
      (wait_for_ready checkOk).2 = true := by
  obtain ⟨pre, hpre, hcnt, hres⟩ := pollFrom_first_success checkOk (k - 1) 0
    max_attempts (by omega) (fun i hi => by simpa using hfail i hi)
    (by simpa using hsucc)
  rw [Nat.zero_add] at hpre
  have hw : (wait_for_ready checkOk).1 = pre ++ [GEvent.sshCheck (k - 1)] :=
    hpre
  have hw2 : (wait_for_ready checkOk).2 = true := hres
  refine ⟨pre, hw, hcnt, ?_, hw2⟩
  simp only [checkCount] at hcnt ⊢
  rw [hw, List.countP_append, hcnt,
    show List.countP GEvent.isCheck [GEvent.sshCheck (k - 1)] = 1 from rfl]
  omega

/-- Witness for C5: a check that first succeeds on attempt 3 of 100. -/
theorem wait_for_ready_first_success_witness :
    ∃ pre, (wait_for_ready fun n => n == 2).1 =
        pre ++ [GEvent.sshCheck (3 - 1)] ∧
      checkCount pre = 3 - 1 ∧
      checkCount (wait_for_ready fun n => n == 2).1 = 3 ∧
      (wait_for_ready fun n => n == 2).2 = true :=
  wait_for_ready_first_success (fun n => n == 2) 3 (by decide) (by decide)
    (by decide) (by decide)

/-- With an existing instance and a non-`y` answer, each `try`-block step
emits no instance deletion and no instance creation. -/
theorem stepRun_decline_no_admin (env : Env) (d : Deployer) (s : Nat)
    (hex : env.instanceExists = true)
    (hn : PyStr.lower (PyStr.strip env.overwriteAnswer) ≠ "y") :
    ((stepRun env d s).1.all fun e => !e.isDelete && !e.isCreate) = true := by
  rcases s with _ | _ | _ | _ | _ | _ | _ | s
  · simp [stepRun, GEvent.isDelete, GEvent.isCreate]
  · simp [stepRun, GEvent.isDelete, GEvent.isCreate]
  · simp [stepRun, create_instance, hex, hn, GEvent.isDelete, GEvent.isCreate]
  · simp [stepRun, GEvent.isDelete, GEvent.isCreate]
  · simpa [stepRun, wait_for_ready] using
      pollFrom_no_admin env.checkOk max_attempts 0
  · simp [stepRun]
  · by_cases hr : PyStr.strip env.repoUrl = "" <;>
      simp [stepRun, hr, GEvent.isDelete, GEvent.isCreate]
  · simp [stepRun, GEvent.isDelete, GEvent.isCreate]

/-- With an existing instance and a non-`y` answer, no run of the
`try` block — interrupted anywhere or not — deletes or creates an
instance. -/
theorem runSteps_decline_no_admin (env : Env) (d : Deployer)
    (intr : Interrupt)
    (hex : env.instanceExists = true)
    (hn : PyStr.lower (PyStr.strip env.overwriteAnswer) ≠ "y") :
    ∀ steps script, ((runSteps env d intr steps script).1.all
      fun e => !e.isDelete && !e.isCreate) = true := by
  intro steps
  induction steps with
  | nil => intro script; simp [runSteps]
  | cons s rest ih =>
      intro script
      cases hi : interruptAt intr s with
      | some r => simp [runSteps, hi]
      | none =>
          by_cases hcont : (stepRun env d s).2.2
          · simp [runSteps, hi, hcont, List.all_append,
              stepRun_decline_no_admin env d s hex hn, ih]
          · simp only [Bool.not_eq_true] at hcont
            simp [runSteps, hi, hcont,
              stepRun_decline_no_admin env d s hex hn]

/-- C2 counterexample: in the concrete environment where the instance
already exists, the operator answers `n`, and everything else succeeds, the
declined run still creates the firewall rule, still polls (an ssh readiness
check occurs), and still reports (it queries the instance IP) — the
workflow does not abort after the decline. -/
theorem deploy_decline_cex :
    declineEnv.instanceExists = true ∧
    PyStr.lower (PyStr.strip declineEnv.overwriteAnswer) ≠ "y" ∧
    GEvent.createFirewallRule "neural-symphony-web" (some "demo-project") ∈
      (deployRun declineEnv Interrupt.noInterrupt).events ∧
    GEvent.sshCheck 0 ∈ (deployRun declineEnv Interrupt.noInterrupt).events ∧
    GEvent.getIp "neural-symphony-gpu" "us-east4-a" (some "demo-project") ∈
      (deployRun declineEnv Interrupt.noInterrupt).events := by
  refine ⟨rfl, by decide, ?_, ?_, ?_⟩ <;> decide

/-- C2 (amended): when the instance exists and the operator declines
recreation, the run deletes no instance and creates no instance — the
existing instance is untouched — but the workflow does not abort: an
uninterrupted run still proceeds to firewall-rule creation and to
reporting. -/
theorem deploy_decline_amended (env : Env) (intr : Interrupt) (proj : String)
    (hp : env.authProject = some proj)
    (hex : env.instanceExists = true)
    (hn : PyStr.lower (PyStr.strip env.overwriteAnswer) ≠ "y") :
    (∀ e ∈ (deployRun env intr).events,
      e.isDelete = false ∧ e.isCreate = false) ∧
    GEvent.createFirewallRule "neural-symphony-web" (some proj) ∈
      (deployRun env Interrupt.noInterrupt).events ∧
    GEvent.getIp "neural-symphony-gpu" "us-east4-a" (some proj) ∈
      (deployRun env Interrupt.noInterrupt).events := by
  refine ⟨?_, ?_⟩
  · intro e he
    have hev : (deployRun env intr).events =
        (runSteps env
          ⟨some proj, "neural-symphony-gpu", "us-east4-a", "g2-standard-8"⟩
          intr deploySteps false).1 := by
      simp [deployRun, hp]
    rw [hev] at he
    have hall := List.all_eq_true.mp
      (runSteps_decline_no_admin env
        ⟨some proj, "neural-symphony-gpu", "us-east4-a", "g2-standard-8"⟩
        intr hex hn deploySteps false) e he
    simpa using hall
  · exact deployRun_reaches_end env proj hp fun d => by
      simp [create_instance, hex, hn]

/-- Witness for the amended C2 at the concrete declining environment. -/
theorem deploy_decline_amended_witness :
    (∀ e ∈ (deployRun declineEnv Interrupt.noInterrupt).events,
      e.isDelete = false ∧ e.isCreate = false) ∧
    GEvent.createFirewallRule "neural-symphony-web" (some "demo-project") ∈
      (deployRun declineEnv Interrupt.noInterrupt).events ∧
    GEvent.getIp "neural-symphony-gpu" "us-east4-a" (some "demo-project") ∈
      (deployRun declineEnv Interrupt.noInterrupt).events :=
  deploy_decline_amended declineEnv Interrupt.noInterrupt "demo-project"
    rfl rfl (by decide)

/-- C6: on every exit path of `deploy` — `check_gcloud` failing early,
normal completion, a caught exception or keyboard interrupt at any step,
or the `SystemExit` of a failed creation — the generated
`startup-script.sh` is absent from disk afterwards. -/
theorem deploy_script_cleanup (env : Env) (intr : Interrupt) :
    (deployRun env intr).scriptOnDisk = false := by
  rcases henv : env.authProject with _ | proj
  · simp [deployRun, henv]
  · simp only [deployRun, henv]
    cases hb : (runSteps env
        ⟨some proj, "neural-symphony-gpu", "us-east4-a", "g2-standard-8"⟩
        intr deploySteps false).2.1 <;>
      simp [hb]

/-- C3: in every environment — the instance existing or not — invoking the
CLI with the single argument `clean` issues exactly one provider call: the
deletion of the configured instance name and zone, with the deployer's
(still unset) project identifier, and prints no usage line. -/
theorem main_clean_single_delete (env : Env) (intr : Interrupt) :
    mainRun ["clean"] env intr =
      ([GEvent.deleteInstance "neural-symphony-gpu" "us-east4-a" none],
       false) := rfl

/-- C9: invoking the CLI with one argument that is neither `status` nor
`clean` prints the usage line and produces an empty event trace: no
provider call of any kind. -/
theorem main_unknown_usage (cmd : String) (env : Env) (intr : Interrupt)
    (h1 : cmd ≠ "status") (h2 : cmd ≠ "clean") :
    mainRun [cmd] env intr = ([], true) := by
  simp [mainRun, h1, h2]

/-- Witness for C9 at the unrecognized subcommand `restart`. -/
theorem main_unknown_usage_witness :
    mainRun ["restart"] neverEnv Interrupt.noInterrupt = ([], true) :=
  main_unknown_usage "restart" neverEnv Interrupt.noInterrupt
    (by decide) (by decide)

end DeployQuick
